import Mathlib

set_option autoImplicit false

/-!
Shallow embedding of the MediaProxy dispatcher core, translated from
mediaproxy/dispatcher.py.  The embedding covers the session router
(RelayFactory.send_command and its helpers), the relay event handlers of
RelayServerProtocol.lineReceived (the expired branch and the response of a
remove command), the statistics fan-out (Dispatcher.update_statistics), the
aggregation queries (get_summary, get_statistics) and the state persistence
(RelayFactory.__init__ together with RelayFactory._save_state).
-/

/-- A command parsed from the ingress channel (class Command): a name and the
parsed key/value headers. -/
structure Command where
  name : String
  parsed_headers : List (String × String)
deriving DecidableEq

/-- The call_id property of Command: value of the call_id header, if any. -/
def Command.call_id (c : Command) : Option String :=
  c.parsed_headers.lookup "call_id"

/-- The dialog_id header of a command, read by RelaySession.__init__. -/
def Command.dialog_id (c : Command) : Option String :=
  c.parsed_headers.lookup "dialog_id"

/-- The media_relay header of a command, read by RelayFactory.send_command. -/
def Command.media_relay (c : Command) : Option String :=
  c.parsed_headers.lookup "media_relay"

/-- One session table entry (class RelaySession): the pinned relay address,
the optional dialog id and the optional expiry timestamp. -/
structure RelaySession where
  relay_ip : String
  dialog_id : Option String
  expire_time : Option Nat
deriving DecidableEq

/-- RelaySession.__init__: pin to the given relay, take dialog_id from the
headers of the command, leave expire_time absent. -/
def RelaySession.ofCommand (relay_ip : String) (c : Command) : RelaySession :=
  { relay_ip := relay_ip, dialog_id := c.dialog_id, expire_time := none }

/-- Connection state of one relay (class RelayServerProtocol): its address and
the halting, timedout and authenticated flags. -/
structure RelayServerProtocol where
  ip : String
  halting : Bool
  timedout : Bool
  authenticated : Bool
deriving DecidableEq

/-- The active property of RelayServerProtocol, exactly as in the source:
not halting and not timed out. -/
def RelayServerProtocol.active (p : RelayServerProtocol) : Bool :=
  !p.halting && !p.timedout

/-- The session table: a finite map from call ids to sessions, embedded as an
association list.  Keys are optional strings because the source indexes the
Python dict directly with command.call_id, which may be absent. -/
abbrev SessionTable := List (Option String × RelaySession)

/-- Map update, self.sessions[k] = s. -/
def tableSet (t : SessionTable) (k : Option String) (s : RelaySession) : SessionTable :=
  (k, s) :: t.filter (fun e => e.1 != k)

/-- Map deletion, del self.sessions[k]. -/
def tableErase (t : SessionTable) (k : Option String) : SessionTable :=
  t.filter (fun e => e.1 != k)

/-- The routing state of RelayFactory: the registry of connected relays keyed
by address, and the session table. -/
structure RelayFactoryState where
  relays : List (String × RelayServerProtocol)
  sessions : SessionTable
deriving DecidableEq

/-- Outcome of one relay request as observed through its deferred: either the
body of a successful reply, or a RelayError (error reply, halting reply,
request timeout or disconnect all surface as RelayError in the source). -/
inductive RelayResponse where
  | success (body : String)
  | failure
deriving DecidableEq

/-- RelayFactory._try_next together with RelayFactory._relay_error: try the
candidates in order, dropping each one that fails with a RelayError.  Returns
the address and body of the first success (or none when the list is
exhausted), paired with the list of relay addresses that were contacted, in
order. -/
def try_next (resp : String → RelayResponse) :
    List RelayServerProtocol → Option (String × String) × List String
  | [] => (none, [])
  | p :: rest =>
    match resp p.ip with
    | .success body => (some (p.ip, body), [p.ip])
    | .failure =>
      let r := try_next resp rest
      (r.1, p.ip :: r.2)

/-- The generator expression in RelayFactory.send_command that seeds the
candidate deque: every registry value that is active and whose address is not
the preferred one. -/
def activeOthers (relays : List (String × RelayServerProtocol))
    (preferred : Option String) : List RelayServerProtocol :=
  (relays.map (fun e => e.2)).filter
    (fun p => p.active && (match preferred with
      | some mr => p.ip != mr
      | none => true))

/-- The candidate list after the preferred-relay step of send_command: the
shuffled actives, with the relay named by media_relay prepended when it is
registered and active (when it is named but unavailable the source only logs
a warning and falls through). -/
def candidateList (relays : List (String × RelayServerProtocol))
    (preferred : Option String) (shuffled : List RelayServerProtocol) :
    List RelayServerProtocol :=
  match preferred with
  | none => shuffled
  | some mr =>
    match relays.lookup mr with
    | some p => if p.active then p :: shuffled else shuffled
    | none => shuffled

/-- What RelayFactory.send_command produces for the ingress caller: a still
pending forward on the pinned path, a reply body on a fresh placement, the
literal removed answer, or a raised RelayError. -/
inductive SendOutcome where
  | pendingReply
  | reply (body : String)
  | removed
  | err (msg : String)
deriving DecidableEq

/-- Result of routing one command: the outcome, the session table afterwards,
and the relay addresses the command was written to, in order. -/
structure SendResult where
  outcome : SendOutcome
  sessions : SessionTable
  contacted : List String
deriving DecidableEq

/-- The part of RelayFactory.send_command that runs when there is no live
session for the call id (no session at all, or a session whose expire_time is
set): fresh placement for update, table drop for remove of an existing
(expired) session, and the unknown-session error otherwise.  The shuffled
argument stands for the result of random.shuffle on the active candidates. -/
def send_fresh (st : RelayFactoryState) (cmd : Command)
    (resp : String → RelayResponse) (shuffled : List RelayServerProtocol)
    (session? : Option RelaySession) : SendResult :=
  if cmd.name = "update" then
    let cands := candidateList st.relays cmd.media_relay shuffled
    match try_next resp cands with
    | (some (ip, body), tried) =>
      { outcome := .reply body
        sessions := tableSet st.sessions cmd.call_id (RelaySession.ofCommand ip cmd)
        contacted := tried }
    | (none, tried) =>
      { outcome := .err "No suitable relay found"
        sessions := st.sessions
        contacted := tried }
  else if cmd.name = "remove" && session?.isSome then
    { outcome := .removed
      sessions := tableErase st.sessions cmd.call_id
      contacted := [] }
  else
    { outcome := .err ("Got " ++ cmd.name ++ " command from OpenSIPS for unknown session")
      sessions := st.sessions
      contacted := [] }

/-- RelayFactory.send_command: pinned routing when a live session exists
(forward to the registered connection of the pinned address, or fail with the
no-longer-connected RelayError), otherwise the fresh path of send_fresh. -/
def send_command (st : RelayFactoryState) (cmd : Command)
    (resp : String → RelayResponse) (shuffled : List RelayServerProtocol) :
    SendResult :=
  match st.sessions.lookup cmd.call_id with
  | some s =>
    if s.expire_time = none then
      match st.relays.lookup s.relay_ip with
      | some _ =>
        { outcome := .pendingReply, sessions := st.sessions, contacted := [s.relay_ip] }
      | none =>
        { outcome := .err ("Relay for this session (" ++ s.relay_ip ++ ") is no longer connected")
          sessions := st.sessions
          contacted := [] }
    else send_fresh st cmd resp shuffled (some s)
  | none => send_fresh st cmd resp shuffled none

/-- JSON values as decoded by cjson: the shape of relay event payloads. -/
inductive JVal where
  | null
  | bool (b : Bool)
  | num (n : Int)
  | str (s : String)
  | arr (xs : List JVal)
  | obj (fields : List (String × JVal))

/-- A decoded JSON object: the dict the source subscripts and updates. -/
abbrev JObj := List (String × JVal)

/-- Subscripting the decoded payload, stats[k]: the value when the key is
present, a KeyError otherwise. -/
def objGet (o : JObj) (k : String) : Except String JVal :=
  match o.lookup k with
  | some v => .ok v
  | none => .error ("KeyError: " ++ k)

/-- Dict item assignment, stats[k] = v. -/
def objSet (o : JObj) (k : String) (v : JVal) : JObj :=
  (k, v) :: o.filter (fun e => e.1 != k)

/-- Subscripting a decoded payload that may not be a dict: a TypeError when it
is not. -/
def getObj (j : JVal) : Except String JObj :=
  match j with
  | .obj fs => .ok fs
  | _ => .error "TypeError"

/-- Reading stats over a decoded value expected to be a list, as the for loop
over stats of streams does. -/
def getArr (j : JVal) : Except String (List JVal) :=
  match j with
  | .arr xs => .ok xs
  | _ => .error "TypeError"

/-- Python None (and absent optional values) rendered into the JSON payload. -/
def optStrJ : Option String → JVal
  | none => .null
  | some s => .str s

/-- stats of start_time is not None: a JSON null stands for Python None. -/
def JVal.isNull : JVal → Bool
  | .null => true
  | _ => false

/-- The comparison stream_info of status == the unselected ICE candidate
literal: true exactly on that string. -/
def isIceStatus : JVal → Bool
  | .str s => s == "unselected ICE candidate"
  | _ => false

/-- stream_info subscripted with status: KeyError when the key is missing,
TypeError when the stream is not a dict. -/
def streamStatus (j : JVal) : Except String JVal :=
  match j with
  | .obj fs => objGet fs "status"
  | _ => .error "TypeError"

/-- The generator passed to all in the expired branch: every status of every
stream equals the ICE literal, with the short-circuit evaluation of all (a
later malformed stream is never touched once a non-ICE status was seen). -/
def allStreamsIce : List JVal → Except String Bool
  | [] => .ok true
  | s :: rest =>
    match streamStatus s with
    | .error e => .error e
    | .ok v => if isIceStatus v then allStreamsIce rest else .ok false

/-- A dict key, as the session table lookup of the decoded call_id uses it:
JSON strings name sessions, anything else matches no string key. -/
def jvalKey : JVal → Option String
  | .str s => some s
  | _ => none

/-- One accounting sink: do_accounting either succeeds or raises. -/
abbrev Sink := JObj → Except String Unit

/-- Dispatcher.update_statistics: subscript start_time (KeyError when the key
is absent); when it is None do nothing, otherwise invoke every sink, each
inside its own try/except so one raising sink never stops the others.
Returns the per-sink outcomes of the sinks that were invoked. -/
def update_statistics (sinks : List Sink) (stats : JObj) :
    Except String (List (Except String Unit)) :=
  match stats.lookup "start_time" with
  | none => .error "KeyError: start_time"
  | some v => if v.isNull then .ok [] else .ok (sinks.map (fun f => f stats))

/-- The three fields the expired branch writes into the payload before
forwarding it as statistics: timed_out, dialog_id and all_streams_ice. -/
def annotateExpired (fs : JObj) (dialog_id : Option String) (ice : Bool) : JObj :=
  objSet (objSet (objSet fs "timed_out" (.bool !ice))
    "dialog_id" (optStrJ dialog_id)) "all_streams_ice" (.bool ice)

/-- What the expired branch of RelayServerProtocol.lineReceived did: dropped
the event (after a decode error, an unknown call id, or a relay mismatch), or
handled it, carrying the annotated payload, the per-sink accounting outcomes
and the dialog id passed to end_dialog (none when no dialog was ended). -/
inductive ExpiredTag where
  | droppedDecodeError
  | droppedUnknown
  | droppedMismatch
  | handled (stats : JObj) (acct : List (Except String Unit)) (endedDialog : Option String)

/-- The expired branch of RelayServerProtocol.lineReceived.  The payload
argument is the result of cjson.decode on the rest of the line (none for a
DecodeError).  Returns the tag and the session table afterwards; a returned
error is an exception that escapes lineReceived uncaught. -/
def handleExpired (sessions : SessionTable) (selfIp : String) (now : Nat)
    (payload? : Option JVal) (sinks : List Sink) :
    Except String (ExpiredTag × SessionTable) :=
  match payload? with
  | none => .ok (.droppedDecodeError, sessions)
  | some payload =>
    match getObj payload with
    | .error e => .error e
    | .ok fs =>
    match objGet fs "call_id" with
    | .error e => .error e
    | .ok cidv =>
    match sessions.lookup (jvalKey cidv) with
    | none => .ok (.droppedUnknown, sessions)
    | some session =>
      if session.relay_ip != selfIp then
        .ok (.droppedMismatch, sessions)
      else
        match objGet fs "streams" with
        | .error e => .error e
        | .ok streams =>
        match getArr streams with
        | .error e => .error e
        | .ok xs =>
        match allStreamsIce xs with
        | .error e => .error e
        | .ok ice =>
        let fs1 := annotateExpired fs session.dialog_id ice
        match update_statistics sinks fs1 with
        | .error e => .error e
        | .ok acct =>
        match (if session.dialog_id.isSome then
                match objGet fs1 "start_time" with
                | .error e => .error e
                | .ok stv => .ok (!stv.isNull && !ice)
              else (.ok false : Except String Bool)) with
        | .error e => .error e
        | .ok cond =>
        if cond then
          .ok (.handled fs1 acct session.dialog_id,
            tableSet sessions (jvalKey cidv) { session with expire_time := some now })
        else
          .ok (.handled fs1 acct none, tableErase sessions (jvalKey cidv))

/-- What the remove-response branch of lineReceived produced: the statistics
payload forwarded to accounting together with the per-sink outcomes (none
when the body did not decode), the session table afterwards, and the value
the waiter of the pending remove command was completed with. -/
structure RemoveOutcome where
  statsForwarded : Option (JObj × List (Except String Unit))
  sessions : SessionTable
  waiterReply : String

/-- The branch of RelayServerProtocol.lineReceived that handles the response
to a pending remove command.  The body argument is the result of cjson.decode
on the response body (none for a DecodeError, which the source logs before
still completing the waiter with the removed literal).  A returned error is
an exception that escapes lineReceived uncaught. -/
def handleRemoveResponse (sessions : SessionTable) (body? : Option JVal)
    (sinks : List Sink) : Except String RemoveOutcome :=
  match body? with
  | none => .ok { statsForwarded := none, sessions := sessions, waiterReply := "removed" }
  | some body =>
    match getObj body with
    | .error e => .error e
    | .ok fs =>
    match objGet fs "call_id" with
    | .error e => .error e
    | .ok cidv =>
    match sessions.lookup (jvalKey cidv) with
    | none => .error ("KeyError: session " ++ (jvalKey cidv).getD "")
    | some session =>
      let fs1 := objSet (objSet fs "dialog_id" (optStrJ session.dialog_id))
        "timed_out" (.bool false)
      match update_statistics sinks fs1 with
      | .error e => .error e
      | .ok acct =>
        .ok { statsForwarded := some (fs1, acct)
              sessions := tableErase sessions (jvalKey cidv)
              waiterReply := "removed" }

/-- What RelayFactory.__init__ establishes from the state file: the loaded
session table, the set of relay addresses given a cleanup_dead_relays_after
timer, and the unconditional unlink of the state file.  The registry of
relays starts empty. -/
structure RelayFactoryInit where
  relays : List (String × RelayServerProtocol)
  sessions : SessionTable
  cleanup_timers : List String
  stateFileDeleted : Bool

/-- RelayFactory._save_state: pickle the session table into the state file.
The pickled object graph is modelled as the table itself, relying on the
load-of-dump identity of the pickle library. -/
def save_state (sessions : SessionTable) : Option SessionTable :=
  some sessions

/-- RelayFactory.__init__: load the pickled table (any failure, a missing or
unreadable file included, yields the empty table and no timers), start one
cleanup timer per distinct relay address referenced by the loaded sessions,
and unlink the state file unconditionally. -/
def relayFactoryInit (loaded : Option SessionTable) : RelayFactoryInit :=
  match loaded with
  | some tbl =>
    { relays := []
      sessions := tbl
      cleanup_timers := (tbl.map (fun e => e.2.relay_ip)).dedup
      stateFileDeleted := true }
  | none =>
    { relays := []
      sessions := []
      cleanup_timers := []
      stateFileDeleted := true }

/-- cjson.encode of dict(status=error, ip=ip), produced by
RelayFactory._summary_error for a failing relay. -/
def summaryErrorBody (ip : String) : String :=
  "\x7b\"status\": \"error\", \"ip\": \"" ++ ip ++ "\"\x7d"

/-- The per-relay entries gathered by RelayFactory.get_summary: the reply body
of each relay in the registry, a failing relay contributing the error-status
object from _summary_error.  The oracle gives the summary reply of each
address, none standing for a RelayError. -/
def summaryParts (relays : List (String × RelayServerProtocol))
    (resp : String → Option String) : List String :=
  relays.map (fun e =>
    match resp e.1 with
    | some body => body
    | none => summaryErrorBody e.1)

/-- RelayFactory.get_summary: send the summary command to every relay in the
registry and join the gathered entries into one JSON array.  Returns the
addresses the command was sent to and the reply line. -/
def get_summary (relays : List (String × RelayServerProtocol))
    (resp : String → Option String) : List String × String :=
  (relays.map (fun e => e.1),
    "[" ++ String.intercalate ", " (summaryParts relays resp) ++ "]")

/-- Python result[1:-1]: strip the first and last character. -/
def stripBrackets (s : String) : String :=
  (s.drop 1).dropRight 1

/-- The per-relay entries gathered by RelayFactory._got_statistics: only the
successful replies survive (a failing relay is dropped by the DeferredList),
empty arrays are skipped, and each surviving array loses its brackets. -/
def statisticsParts (relays : List (String × RelayServerProtocol))
    (resp : String → Option String) : List String :=
  (((relays.filterMap (fun e => resp e.1)).filter (fun r => r != "[]")).map stripBrackets)

/-- RelayFactory.get_statistics: send the sessions command to every relay in
the registry and join the surviving per-relay entries into one JSON array. -/
def get_statistics (relays : List (String × RelayServerProtocol))
    (resp : String → Option String) : List String × String :=
  (relays.map (fun e => e.1),
    "[" ++ String.intercalate ", " (statisticsParts relays resp) ++ "]")

/-- Whether one decoded stream carries the ICE status: its status key is
present and equals the ICE literal. -/
def streamIsIce (j : JVal) : Bool :=
  match streamStatus j with
  | .ok v => isIceStatus v
  | .error _ => false

/-! Helper lemmas about the embedded map and list operations. -/

theorem lookup_filter_ne {α : Type} {β : Type} [BEq α] [LawfulBEq α]
    (t : List (α × β)) (k k' : α) (h : k' ≠ k) :
    (t.filter (fun e => e.1 != k)).lookup k' = t.lookup k' := by
  induction t with
  | nil => rfl
  | cons e rest ih =>
    obtain ⟨a, b⟩ := e
    by_cases ha : a = k
    · subst ha
      have h2 : (k' == a) = false := by simp [h]
      simp [List.filter_cons, List.lookup, h2, ih]
    · by_cases hk : k' = a
      · subst hk
        simp [List.filter_cons, List.lookup, ha]
      · have h2 : (k' == a) = false := by simp [hk]
        simp [List.filter_cons, List.lookup, h2, ha, ih]

theorem lookup_filter_self {α : Type} {β : Type} [BEq α] [LawfulBEq α]
    (t : List (α × β)) (k : α) :
    (t.filter (fun e => e.1 != k)).lookup k = none := by
  induction t with
  | nil => rfl
  | cons e rest ih =>
    obtain ⟨a, b⟩ := e
    by_cases ha : a = k
    · simp [List.filter_cons, ha, ih]
    · have h2 : (k == a) = false := by
        simp only [beq_eq_false_iff_ne, ne_eq]
        exact fun h => ha h.symm
      simp [List.filter_cons, List.lookup, ha, h2, ih]

theorem lookup_tableSet_self (t : SessionTable) (k : Option String) (s : RelaySession) :
    (tableSet t k s).lookup k = some s := by
  simp [tableSet, List.lookup]

theorem lookup_tableSet_ne (t : SessionTable) (k k' : Option String) (s : RelaySession)
    (h : k' ≠ k) : (tableSet t k s).lookup k' = t.lookup k' := by
  have h2 : (k' == k) = false := by simp [h]
  simp only [tableSet, List.lookup, h2]
  exact lookup_filter_ne t k k' h

theorem lookup_tableErase_self (t : SessionTable) (k : Option String) :
    (tableErase t k).lookup k = none :=
  lookup_filter_self t k

theorem lookup_tableErase_ne (t : SessionTable) (k k' : Option String)
    (h : k' ≠ k) : (tableErase t k).lookup k' = t.lookup k' :=
  lookup_filter_ne t k k' h

theorem lookup_objSet_self (o : JObj) (k : String) (v : JVal) :
    (objSet o k v).lookup k = some v := by
  simp [objSet, List.lookup]

theorem lookup_objSet_ne (o : JObj) (k k' : String) (v : JVal)
    (h : k' ≠ k) : (objSet o k v).lookup k' = o.lookup k' := by
  have h2 : (k' == k) = false := by simp [h]
  simp only [objSet, List.lookup, h2]
  exact lookup_filter_ne o k k' h

theorem try_next_all_failure (resp : String → RelayResponse)
    (l : List RelayServerProtocol) (h : ∀ p ∈ l, resp p.ip = .failure) :
    try_next resp l = (none, l.map (fun p => p.ip)) := by
  induction l with
  | nil => rfl
  | cons p rest ih =>
    have hp := h p (by simp)
    simp [try_next, hp, ih (fun q hq => h q (by simp [hq]))]

theorem try_next_first_success (resp : String → RelayResponse)
    (pre : List RelayServerProtocol) (p : RelayServerProtocol)
    (post : List RelayServerProtocol) (body : String)
    (hpre : ∀ q ∈ pre, resp q.ip = .failure) (hp : resp p.ip = .success body) :
    try_next resp (pre ++ p :: post) =
      (some (p.ip, body), pre.map (fun q => q.ip) ++ [p.ip]) := by
  induction pre with
  | nil => simp [try_next, hp]
  | cons q rest ih =>
    have hq := hpre q (by simp)
    simp [try_next, hq, ih (fun r hr => hpre r (by simp [hr]))]

theorem allStreamsIce_ok_true_iff (xs : List JVal) (b : Bool)
    (h : allStreamsIce xs = .ok b) :
    b = true ↔ ∀ j ∈ xs, streamIsIce j = true := by
  induction xs generalizing b with
  | nil =>
    simp only [allStreamsIce] at h
    cases h
    simp
  | cons s rest ih =>
    simp only [allStreamsIce] at h
    split at h
    · cases h
    · rename_i v hs
      by_cases hice : isIceStatus v
      · rw [if_pos hice] at h
        have hrest := ih b h
        constructor
        · intro hb j hj
          rcases List.mem_cons.mp hj with h1 | h1
          · subst h1
            simp [streamIsIce, hs, hice]
          · exact (hrest.mp hb) j h1
        · intro hall
          exact hrest.mpr (fun j hj => hall j (by simp [hj]))
      · rw [if_neg hice] at h
        cases h
        constructor
        · intro hfalse
          cases hfalse
        · intro hall
          have := hall s (by simp)
          rw [streamIsIce, hs] at this
          exact absurd this (by simpa using hice)

theorem annotate_lookup_timed_out (fs : JObj) (d : Option String) (ice : Bool) :
    (annotateExpired fs d ice).lookup "timed_out" = some (.bool !ice) := by
  rw [annotateExpired, lookup_objSet_ne _ _ _ _ (by decide),
    lookup_objSet_ne _ _ _ _ (by decide), lookup_objSet_self]

theorem annotate_lookup_dialog_id (fs : JObj) (d : Option String) (ice : Bool) :
    (annotateExpired fs d ice).lookup "dialog_id" = some (optStrJ d) := by
  rw [annotateExpired, lookup_objSet_ne _ _ _ _ (by decide), lookup_objSet_self]

theorem annotate_lookup_all_streams_ice (fs : JObj) (d : Option String) (ice : Bool) :
    (annotateExpired fs d ice).lookup "all_streams_ice" = some (.bool ice) := by
  rw [annotateExpired, lookup_objSet_self]

theorem annotate_lookup_other (fs : JObj) (d : Option String) (ice : Bool)
    (k : String) (h1 : k ≠ "timed_out") (h2 : k ≠ "dialog_id")
    (h3 : k ≠ "all_streams_ice") :
    (annotateExpired fs d ice).lookup k = fs.lookup k := by
  rw [annotateExpired, lookup_objSet_ne _ _ _ _ h3, lookup_objSet_ne _ _ _ _ h2,
    lookup_objSet_ne _ _ _ _ h1]

theorem send_fresh_update (st : RelayFactoryState) (cmd : Command)
    (resp : String → RelayResponse) (shuffled : List RelayServerProtocol)
    (session? : Option RelaySession) (hname : cmd.name = "update") :
    send_fresh st cmd resp shuffled session? =
      (match try_next resp (candidateList st.relays cmd.media_relay shuffled) with
      | (some (ip, body), tried) =>
        { outcome := .reply body
          sessions := tableSet st.sessions cmd.call_id (RelaySession.ofCommand ip cmd)
          contacted := tried }
      | (none, tried) =>
        { outcome := .err "No suitable relay found"
          sessions := st.sessions
          contacted := tried }) := by
  simp [send_fresh, hname]

/-! Claim theorems. -/

/-- C7 counterexample: a connection that is not authenticated but neither
halting nor timed out counts as active in the code, so active is not
equivalent to authenticated and not halting and not timed out. -/
theorem active_ignores_authenticated :
    ({ ip := "10.0.0.9", halting := false, timedout := false, authenticated := false }
      : RelayServerProtocol).active = true ∧
    ({ ip := "10.0.0.9", halting := false, timedout := false, authenticated := false }
      : RelayServerProtocol).authenticated = false :=
  ⟨rfl, rfl⟩

/-- C7 (amended): a relay connection is active exactly when it is not halting
and not timed out; the authenticated flag is not consulted by the active
property. -/
theorem active_characterization (p : RelayServerProtocol) :
    p.active = true ↔ (p.halting = false ∧ p.timedout = false) := by
  simp [RelayServerProtocol.active, Bool.not_eq_true']

/-- C1: pinned routing.  For a command whose call id has a session with
expire_time absent, send_command forwards the command to the connection
registered for the pinned address, leaving the session table unchanged; when
no connection for that address is in the registry it fails with the
relay-no-longer-connected RelayError, contacts no relay, and leaves the
session table unchanged, so the session is never re-pinned. -/
theorem pinned_routing (st : RelayFactoryState) (cmd : Command)
    (resp : String → RelayResponse) (shuffled : List RelayServerProtocol)
    (cid : String) (s : RelaySession)
    (hcid : cmd.call_id = some cid)
    (hs : st.sessions.lookup (some cid) = some s)
    (hlive : s.expire_time = none) :
    ((st.relays.lookup s.relay_ip).isSome = true →
      send_command st cmd resp shuffled =
        { outcome := .pendingReply, sessions := st.sessions, contacted := [s.relay_ip] }) ∧
    (st.relays.lookup s.relay_ip = none →
      send_command st cmd resp shuffled =
        { outcome := .err ("Relay for this session (" ++ s.relay_ip ++ ") is no longer connected")
          sessions := st.sessions
          contacted := [] }) := by
  have hlook : st.sessions.lookup cmd.call_id = some s := by rw [hcid]; exact hs
  constructor
  · intro hreg
    obtain ⟨pr, hpr⟩ := Option.isSome_iff_exists.mp hreg
    simp [send_command, hlook, hlive, hpr]
  · intro hreg
    simp [send_command, hlook, hlive, hreg]

/-- C1 witness: pinned routing applied at a concrete state with the pinned
relay registered. -/
theorem pinned_routing_witness :
    (({ relays := [("10.0.0.1",
          { ip := "10.0.0.1", halting := false, timedout := false, authenticated := true })]
        sessions := [(some "call-1",
          { relay_ip := "10.0.0.1", dialog_id := some "d1", expire_time := none })] }
      : RelayFactoryState).sessions.lookup (some "call-1") =
        some { relay_ip := "10.0.0.1", dialog_id := some "d1", expire_time := none }) ∧
    send_command
      { relays := [("10.0.0.1",
          { ip := "10.0.0.1", halting := false, timedout := false, authenticated := true })]
        sessions := [(some "call-1",
          { relay_ip := "10.0.0.1", dialog_id := some "d1", expire_time := none })] }
      { name := "remove", parsed_headers := [("call_id", "call-1")] }
      (fun _ => RelayResponse.failure) [] =
      { outcome := .pendingReply
        sessions := [(some "call-1",
          { relay_ip := "10.0.0.1", dialog_id := some "d1", expire_time := none })]
        contacted := ["10.0.0.1"] } :=
  ⟨by decide,
    (pinned_routing
      { relays := [("10.0.0.1",
          { ip := "10.0.0.1", halting := false, timedout := false, authenticated := true })]
        sessions := [(some "call-1",
          { relay_ip := "10.0.0.1", dialog_id := some "d1", expire_time := none })] }
      { name := "remove", parsed_headers := [("call_id", "call-1")] }
      (fun _ => RelayResponse.failure) []
      "call-1" { relay_ip := "10.0.0.1", dialog_id := some "d1", expire_time := none }
      (by decide) (by decide) rfl).1 (by decide)⟩

/-- C2 counterexample: with a session for call-1 whose expire_time is set, an
update command for call-1 is still forwarded to a relay (the fresh placement
contacts 10.0.0.2) and the table entry is overwritten by a new session, so it
is not the case that no operation ever forwards a command for that call id
and that removal is the only transition touching the entry. -/
theorem expired_update_forwarded :
    (([(some "call-1", { relay_ip := "10.0.0.1", dialog_id := some "d1", expire_time := some 5 })]
      : SessionTable).lookup (some "call-1")
      = some { relay_ip := "10.0.0.1", dialog_id := some "d1", expire_time := some 5 }) ∧
    send_command
      { relays := [("10.0.0.2",
          { ip := "10.0.0.2", halting := false, timedout := false, authenticated := true })]
        sessions := [(some "call-1",
          { relay_ip := "10.0.0.1", dialog_id := some "d1", expire_time := some 5 })] }
      { name := "update", parsed_headers := [("call_id", "call-1")] }
      (fun _ => RelayResponse.success "sdp-1")
      [{ ip := "10.0.0.2", halting := false, timedout := false, authenticated := true }] =
      { outcome := .reply "sdp-1"
        sessions := [(some "call-1",
          { relay_ip := "10.0.0.2", dialog_id := none, expire_time := none })]
        contacted := ["10.0.0.2"] } :=
  ⟨by decide, by decide⟩

/-- C2 (amended): a session with expire_time set is terminal for pinned
routing: the pinned branch is never taken for its call id, so no command is
ever forwarded to its pinned relay on its behalf; a remove for its call id
deletes it from the table without contacting any relay; any command that is
neither update nor remove fails with the unknown-session RelayError without
contacting any relay; and an update for its call id is handled entirely by
the fresh-placement path, which may contact freshly chosen relays and, on
success, overwrites the table entry with a new session. -/
theorem expired_session_terminal (st : RelayFactoryState) (cmd : Command)
    (resp : String → RelayResponse) (shuffled : List RelayServerProtocol)
    (s : RelaySession)
    (hs : st.sessions.lookup cmd.call_id = some s)
    (hexp : s.expire_time ≠ none) :
    send_command st cmd resp shuffled = send_fresh st cmd resp shuffled (some s) ∧
    (cmd.name = "remove" →
      send_command st cmd resp shuffled =
        { outcome := .removed, sessions := tableErase st.sessions cmd.call_id, contacted := [] }) ∧
    (cmd.name ≠ "update" → cmd.name ≠ "remove" →
      send_command st cmd resp shuffled =
        { outcome := .err ("Got " ++ cmd.name ++ " command from OpenSIPS for unknown session")
          sessions := st.sessions
          contacted := [] }) := by
  have h1 : send_command st cmd resp shuffled = send_fresh st cmd resp shuffled (some s) := by
    simp [send_command, hs, hexp]
  refine ⟨h1, ?_, ?_⟩
  · intro hrm
    rw [h1]
    simp [send_fresh, hrm]
  · intro hu hr
    rw [h1]
    simp [send_fresh, hu, hr]

/-- C2 witness: the amended theorem applied to a concrete expired session and
the confirming remove command. -/
theorem expired_session_terminal_witness :
    (([(some "call-1", { relay_ip := "10.0.0.1", dialog_id := some "d1", expire_time := some 5 })]
      : SessionTable).lookup (some "call-1")
      = some { relay_ip := "10.0.0.1", dialog_id := some "d1", expire_time := some 5 }) ∧
    send_command
      { relays := []
        sessions := [(some "call-1",
          { relay_ip := "10.0.0.1", dialog_id := some "d1", expire_time := some 5 })] }
      { name := "remove", parsed_headers := [("call_id", "call-1")] }
      (fun _ => RelayResponse.failure) [] =
      { outcome := .removed, sessions := [], contacted := [] } :=
  ⟨by decide,
    (expired_session_terminal
      { relays := []
        sessions := [(some "call-1",
          { relay_ip := "10.0.0.1", dialog_id := some "d1", expire_time := some 5 })] }
      { name := "remove", parsed_headers := [("call_id", "call-1")] }
      (fun _ => RelayResponse.failure) []
      { relay_ip := "10.0.0.1", dialog_id := some "d1", expire_time := some 5 }
      (by decide) (by decide)).2.1 rfl⟩

/-- C3: placement of an update with no live session.  The relay named by the
media_relay header is the first candidate exactly when it is registered and
active, followed by the shuffled actives (the shuffled argument ranges over
every permutation of the other active connections, standing for the uniform
shuffle); candidates are tried in order with failover on RelayError; the
first success records a new session pinned to the succeeding address with the
dialog id of the command and expire_time absent and returns the body; when
the list is exhausted the call fails with the no-suitable-relay RelayError
and the table is unchanged. -/
theorem update_placement (st : RelayFactoryState) (cmd : Command)
    (resp : String → RelayResponse) (shuffled : List RelayServerProtocol)
    (cid : String)
    (hname : cmd.name = "update")
    (hcid : cmd.call_id = some cid)
    (hnolive : ∀ s, st.sessions.lookup (some cid) = some s → s.expire_time ≠ none)
    (hperm : shuffled.Perm (activeOthers st.relays cmd.media_relay)) :
    (∀ mr p, cmd.media_relay = some mr → st.relays.lookup mr = some p →
      p.active = true →
      candidateList st.relays cmd.media_relay shuffled = p :: shuffled) ∧
    (∀ mr, cmd.media_relay = some mr →
      (∀ p, st.relays.lookup mr = some p → p.active = false) →
      candidateList st.relays cmd.media_relay shuffled = shuffled) ∧
    (cmd.media_relay = none →
      candidateList st.relays cmd.media_relay shuffled = shuffled) ∧
    (∀ pre p post body,
      candidateList st.relays cmd.media_relay shuffled = pre ++ p :: post →
      (∀ q ∈ pre, resp q.ip = .failure) → resp p.ip = .success body →
      send_command st cmd resp shuffled =
        { outcome := .reply body
          sessions := tableSet st.sessions (some cid)
            { relay_ip := p.ip, dialog_id := cmd.dialog_id, expire_time := none }
          contacted := pre.map (fun q => q.ip) ++ [p.ip] }) ∧
    ((∀ q ∈ candidateList st.relays cmd.media_relay shuffled, resp q.ip = .failure) →
      send_command st cmd resp shuffled =
        { outcome := .err "No suitable relay found"
          sessions := st.sessions
          contacted := (candidateList st.relays cmd.media_relay shuffled).map (fun q => q.ip) }) := by
  have hmain : send_command st cmd resp shuffled =
      (match try_next resp (candidateList st.relays cmd.media_relay shuffled) with
      | (some (ip, body), tried) =>
        { outcome := .reply body
          sessions := tableSet st.sessions cmd.call_id (RelaySession.ofCommand ip cmd)
          contacted := tried }
      | (none, tried) =>
        { outcome := .err "No suitable relay found"
          sessions := st.sessions
          contacted := tried }) := by
    cases hl : st.sessions.lookup cmd.call_id with
    | none =>
      simp only [send_command, hl]
      exact send_fresh_update st cmd resp shuffled none hname
    | some s =>
      have hne : ¬ s.expire_time = none := hnolive s (by rw [hcid] at hl; exact hl)
      simp only [send_command, hl, if_neg hne]
      exact send_fresh_update st cmd resp shuffled (some s) hname
  refine ⟨?_, ?_, ?_, ?_, ?_⟩
  · intro mr p hmr hp hact
    simp [candidateList, hmr, hp, hact]
  · intro mr hmr hinact
    simp only [candidateList, hmr]
    cases hp : st.relays.lookup mr with
    | none => rfl
    | some p => simp [hinact p hp]
  · intro hmr
    simp [candidateList, hmr]
  · intro pre p post body hcand hpre hp
    rw [hmain, hcand, try_next_first_success resp pre p post body hpre hp]
    simp [RelaySession.ofCommand, hcid]
  · intro hall
    rw [hmain, try_next_all_failure resp _ hall]

/-- C3 witness: update placement applied at a concrete registry of two active
relays where the preferred relay fails and the other succeeds. -/
theorem update_placement_witness :
    ((fun ip => if ip == "10.0.0.2" then RelayResponse.failure
        else RelayResponse.success "sdp-3") "10.0.0.2" = RelayResponse.failure) ∧
    ((fun ip => if ip == "10.0.0.2" then RelayResponse.failure
        else RelayResponse.success "sdp-3") "10.0.0.1" = RelayResponse.success "sdp-3") ∧
    send_command
      { relays := [("10.0.0.1",
          { ip := "10.0.0.1", halting := false, timedout := false, authenticated := true }),
          ("10.0.0.2",
          { ip := "10.0.0.2", halting := false, timedout := false, authenticated := true })]
        sessions := [] }
      { name := "update",
        parsed_headers := [("call_id", "call-2"), ("media_relay", "10.0.0.2")] }
      (fun ip => if ip == "10.0.0.2" then RelayResponse.failure
        else RelayResponse.success "sdp-3")
      [{ ip := "10.0.0.1", halting := false, timedout := false, authenticated := true }] =
      { outcome := .reply "sdp-3"
        sessions := [(some "call-2",
          { relay_ip := "10.0.0.1", dialog_id := none, expire_time := none })]
        contacted := ["10.0.0.2", "10.0.0.1"] } :=
  ⟨by decide, by decide,
    (update_placement
      { relays := [("10.0.0.1",
          { ip := "10.0.0.1", halting := false, timedout := false, authenticated := true }),
          ("10.0.0.2",
          { ip := "10.0.0.2", halting := false, timedout := false, authenticated := true })]
        sessions := [] }
      { name := "update",
        parsed_headers := [("call_id", "call-2"), ("media_relay", "10.0.0.2")] }
      (fun ip => if ip == "10.0.0.2" then RelayResponse.failure
        else RelayResponse.success "sdp-3")
      [{ ip := "10.0.0.1", halting := false, timedout := false, authenticated := true }]
      "call-2" rfl (by decide)
      (by intro s h; simp [List.lookup] at h)
      (by decide)).2.2.2.1
      [{ ip := "10.0.0.2", halting := false, timedout := false, authenticated := true }]
      { ip := "10.0.0.1", halting := false, timedout := false, authenticated := true }
      [] "sdp-3" (by decide) (by decide) (by decide)⟩

/-- C4: for a well-formed expired event whose call id names a session pinned
to this connection, the payload is annotated with timed_out (the negation of
all_streams_ice), dialog_id and all_streams_ice and forwarded as statistics;
the dialog is ended and expire_time set to the current time exactly when
dialog_id is present, start_time is present and all_streams_ice is false, and
otherwise the session is removed from the table immediately; all_streams_ice
holds exactly when every stream carries the ICE status; an event with an
unknown call id, or whose session is pinned to a different relay, is dropped
with no state change. -/
theorem expired_event (sessions : SessionTable) (selfIp : String) (now : Nat)
    (sinks : List Sink) (fs : JObj) (cid : String) (session : RelaySession)
    (xs : List JVal) (ice : Bool) (stv : JVal)
    (hcid : fs.lookup "call_id" = some (.str cid))
    (hsess : sessions.lookup (some cid) = some session)
    (hpin : session.relay_ip = selfIp)
    (hstreams : fs.lookup "streams" = some (.arr xs))
    (hice : allStreamsIce xs = .ok ice)
    (hstart : fs.lookup "start_time" = some stv) :
    (handleExpired sessions selfIp now (some (.obj fs)) sinks =
      .ok (.handled (annotateExpired fs session.dialog_id ice)
            (if stv.isNull then []
             else sinks.map (fun f => f (annotateExpired fs session.dialog_id ice)))
            (if session.dialog_id.isSome && (!stv.isNull && !ice)
             then session.dialog_id else none),
        if session.dialog_id.isSome && (!stv.isNull && !ice)
        then tableSet sessions (some cid) { session with expire_time := some now }
        else tableErase sessions (some cid))) ∧
    (annotateExpired fs session.dialog_id ice).lookup "timed_out" = some (.bool !ice) ∧
    (annotateExpired fs session.dialog_id ice).lookup "dialog_id" =
      some (optStrJ session.dialog_id) ∧
    (annotateExpired fs session.dialog_id ice).lookup "all_streams_ice" =
      some (.bool ice) ∧
    (ice = true ↔ ∀ j ∈ xs, streamIsIce j = true) ∧
    (∀ (sessions2 : SessionTable) (fs2 : JObj) (cid2 : JVal),
      fs2.lookup "call_id" = some cid2 →
      sessions2.lookup (jvalKey cid2) = none →
      handleExpired sessions2 selfIp now (some (.obj fs2)) sinks =
        .ok (.droppedUnknown, sessions2)) ∧
    (∀ (sessions3 : SessionTable) (fs3 : JObj) (cid3 : JVal)
        (session3 : RelaySession),
      fs3.lookup "call_id" = some cid3 →
      sessions3.lookup (jvalKey cid3) = some session3 →
      session3.relay_ip ≠ selfIp →
      handleExpired sessions3 selfIp now (some (.obj fs3)) sinks =
        .ok (.droppedMismatch, sessions3)) := by
  have hfs1start :
      (annotateExpired fs session.dialog_id ice).lookup "start_time" = some stv := by
    rw [annotate_lookup_other fs session.dialog_id ice "start_time"
      (by decide) (by decide) (by decide), hstart]
  have hus : update_statistics sinks (annotateExpired fs session.dialog_id ice) =
      .ok (if stv.isNull then []
           else sinks.map (fun f => f (annotateExpired fs session.dialog_id ice))) := by
    rw [update_statistics, hfs1start]
    by_cases hnull : stv.isNull
    · simp [hnull]
    · simp [hnull]
  refine ⟨?_, annotate_lookup_timed_out fs session.dialog_id ice,
    annotate_lookup_dialog_id fs session.dialog_id ice,
    annotate_lookup_all_streams_ice fs session.dialog_id ice,
    allStreamsIce_ok_true_iff xs ice hice, ?_, ?_⟩
  · have hne : (session.relay_ip != selfIp) = false := by rw [hpin]; simp
    simp only [handleExpired, getObj, objGet, jvalKey, hcid, hsess, hne,
      Bool.false_eq_true, if_false, hstreams, getArr, hice, hus]
    by_cases hdi : session.dialog_id.isSome
    · simp only [hdi, if_true, objGet, hfs1start]
      by_cases hcnd : (!stv.isNull && !ice)
      · simp [hcnd]
      · simp [hcnd]
    · simp only [hdi]
      simp
  · intro sessions2 fs2 cid2 h1 h2
    simp only [handleExpired, getObj, objGet, h1, h2]
  · intro sessions3 fs3 cid3 session3 h1 h2 h3
    have hne3 : (session3.relay_ip != selfIp) = true := by simp [h3]
    simp only [handleExpired, getObj, objGet, h1, h2, hne3, if_true]

/-- C4 witness: an expired event whose only stream carries the ICE status,
for a session with a dialog id and a start_time: the payload is annotated and
forwarded, no dialog is ended and the session is removed immediately. -/
theorem expired_event_witness :
    allStreamsIce [JVal.obj [("status", JVal.str "unselected ICE candidate")]] =
      .ok true ∧
    handleExpired
      [(some "z", { relay_ip := "10.0.0.1", dialog_id := some "d9", expire_time := none })]
      "10.0.0.1" 50
      (some (.obj [("call_id", JVal.str "z"),
        ("streams", JVal.arr [JVal.obj [("status", JVal.str "unselected ICE candidate")]]),
        ("start_time", JVal.num 123)])) [] =
      .ok (.handled
        (annotateExpired
          [("call_id", JVal.str "z"),
            ("streams", JVal.arr [JVal.obj [("status", JVal.str "unselected ICE candidate")]]),
            ("start_time", JVal.num 123)]
          (some "d9") true) [] none, []) :=
  ⟨rfl,
    (expired_event
      [(some "z", { relay_ip := "10.0.0.1", dialog_id := some "d9", expire_time := none })]
      "10.0.0.1" 50 []
      [("call_id", JVal.str "z"),
        ("streams", JVal.arr [JVal.obj [("status", JVal.str "unselected ICE candidate")]]),
        ("start_time", JVal.num 123)]
      "z" { relay_ip := "10.0.0.1", dialog_id := some "d9", expire_time := none }
      [JVal.obj [("status", JVal.str "unselected ICE candidate")]] true (JVal.num 123)
      rfl rfl rfl rfl rfl rfl).1⟩

/-- C5: update followed by remove for the same call id, with no intervening
expired event.  A successful update records a live session pinned to the
succeeding relay with the dialog id of the update; the later remove is
forwarded to exactly that relay with the table untouched at routing time;
when the response of the relay to the remove arrives, the statistics
forwarded to accounting carry timed_out false and the dialog id of the
session, the session is erased from the table, and the waiter is completed
with the literal removed. -/
theorem update_then_remove (st : RelayFactoryState) (u rm : Command)
    (resp resp2 : String → RelayResponse)
    (shuffled shuffled2 : List RelayServerProtocol)
    (relays2 : List (String × RelayServerProtocol))
    (cid rip body : String) (tried : List String)
    (gs : JObj) (stv : JVal) (sinks : List Sink) (pr : RelayServerProtocol)
    (huname : u.name = "update") (hucid : u.call_id = some cid)
    (hrmname : rm.name = "remove") (hrmcid : rm.call_id = some cid)
    (hnosess : st.sessions.lookup (some cid) = none)
    (htry : try_next resp (candidateList st.relays u.media_relay shuffled) =
      (some (rip, body), tried))
    (hreg2 : relays2.lookup rip = some pr)
    (hgcid : gs.lookup "call_id" = some (.str cid))
    (hgstart : gs.lookup "start_time" = some stv) :
    send_command st u resp shuffled =
      { outcome := .reply body
        sessions := tableSet st.sessions (some cid)
          { relay_ip := rip, dialog_id := u.dialog_id, expire_time := none }
        contacted := tried } ∧
    (tableSet st.sessions (some cid)
        { relay_ip := rip, dialog_id := u.dialog_id, expire_time := none }).lookup
        (some cid) =
      some { relay_ip := rip, dialog_id := u.dialog_id, expire_time := none } ∧
    send_command
      { relays := relays2
        sessions := tableSet st.sessions (some cid)
          { relay_ip := rip, dialog_id := u.dialog_id, expire_time := none } }
      rm resp2 shuffled2 =
      { outcome := .pendingReply
        sessions := tableSet st.sessions (some cid)
          { relay_ip := rip, dialog_id := u.dialog_id, expire_time := none }
        contacted := [rip] } ∧
    handleRemoveResponse
      (tableSet st.sessions (some cid)
        { relay_ip := rip, dialog_id := u.dialog_id, expire_time := none })
      (some (.obj gs)) sinks =
      .ok { statsForwarded := some
              (objSet (objSet gs "dialog_id" (optStrJ u.dialog_id))
                "timed_out" (.bool false),
               if stv.isNull then []
               else sinks.map (fun f =>
                 f (objSet (objSet gs "dialog_id" (optStrJ u.dialog_id))
                   "timed_out" (.bool false))))
            sessions := tableErase
              (tableSet st.sessions (some cid)
                { relay_ip := rip, dialog_id := u.dialog_id, expire_time := none })
              (some cid)
            waiterReply := "removed" } ∧
    (objSet (objSet gs "dialog_id" (optStrJ u.dialog_id))
        "timed_out" (.bool false)).lookup "timed_out" = some (.bool false) ∧
    (objSet (objSet gs "dialog_id" (optStrJ u.dialog_id))
        "timed_out" (.bool false)).lookup "dialog_id" = some (optStrJ u.dialog_id) ∧
    (tableErase
        (tableSet st.sessions (some cid)
          { relay_ip := rip, dialog_id := u.dialog_id, expire_time := none })
        (some cid)).lookup (some cid) = none := by
  have hlookset := lookup_tableSet_self st.sessions (some cid)
    { relay_ip := rip, dialog_id := u.dialog_id, expire_time := none }
  refine ⟨?_, hlookset, ?_, ?_, ?_, ?_, lookup_tableErase_self _ _⟩
  · have hmain : send_command st u resp shuffled = send_fresh st u resp shuffled none := by
      simp only [send_command]
      rw [hucid, hnosess]
    rw [hmain, send_fresh_update st u resp shuffled none huname, htry, hucid]
    rfl
  · simp only [send_command]
    rw [hrmcid, hlookset]
    simp [hreg2]
  · have hfs1start :
        (objSet (objSet gs "dialog_id" (optStrJ u.dialog_id))
          "timed_out" (.bool false)).lookup "start_time" = some stv := by
      rw [lookup_objSet_ne _ _ _ _ (by decide), lookup_objSet_ne _ _ _ _ (by decide),
        hgstart]
    have hus : update_statistics sinks
        (objSet (objSet gs "dialog_id" (optStrJ u.dialog_id))
          "timed_out" (.bool false)) =
        .ok (if stv.isNull then []
             else sinks.map (fun f =>
               f (objSet (objSet gs "dialog_id" (optStrJ u.dialog_id))
                 "timed_out" (.bool false)))) := by
      rw [update_statistics, hfs1start]
      by_cases hnull : stv.isNull
      · simp [hnull]
      · simp [hnull]
    simp only [handleRemoveResponse, getObj, objGet, jvalKey, hgcid, hlookset, hus]
  · rw [lookup_objSet_self]
  · rw [lookup_objSet_ne _ _ _ _ (by decide), lookup_objSet_self]

/-- C5 witness: a concrete update placing call id x on relay 10.0.0.1 and the
later remove whose relay response erases the session, reports timed_out
false with the dialog id, and answers removed. -/
theorem update_then_remove_witness :
    send_command
      { relays := [("10.0.0.1",
          { ip := "10.0.0.1", halting := false, timedout := false, authenticated := true })]
        sessions := [] }
      { name := "update", parsed_headers := [("call_id", "x"), ("dialog_id", "dx")] }
      (fun _ => RelayResponse.success "sdp-1")
      [{ ip := "10.0.0.1", halting := false, timedout := false, authenticated := true }] =
      { outcome := .reply "sdp-1"
        sessions := [(some "x",
          { relay_ip := "10.0.0.1", dialog_id := some "dx", expire_time := none })]
        contacted := ["10.0.0.1"] } ∧
    handleRemoveResponse
      [(some "x", { relay_ip := "10.0.0.1", dialog_id := some "dx", expire_time := none })]
      (some (.obj [("call_id", JVal.str "x"), ("start_time", JVal.num 7)])) [] =
      .ok { statsForwarded := some
              (objSet (objSet [("call_id", JVal.str "x"), ("start_time", JVal.num 7)]
                "dialog_id" (JVal.str "dx")) "timed_out" (.bool false), [])
            sessions := []
            waiterReply := "removed" } := by
  have h := update_then_remove
    { relays := [("10.0.0.1",
        { ip := "10.0.0.1", halting := false, timedout := false, authenticated := true })]
      sessions := [] }
    { name := "update", parsed_headers := [("call_id", "x"), ("dialog_id", "dx")] }
    { name := "remove", parsed_headers := [("call_id", "x")] }
    (fun _ => RelayResponse.success "sdp-1") (fun _ => RelayResponse.failure)
    [{ ip := "10.0.0.1", halting := false, timedout := false, authenticated := true }]
    []
    [("10.0.0.1",
      { ip := "10.0.0.1", halting := false, timedout := false, authenticated := true })]
    "x" "10.0.0.1" "sdp-1" ["10.0.0.1"]
    [("call_id", JVal.str "x"), ("start_time", JVal.num 7)] (JVal.num 7) []
    { ip := "10.0.0.1", halting := false, timedout := false, authenticated := true }
    rfl rfl rfl rfl rfl rfl rfl rfl rfl
  exact ⟨h.1, h.2.2.2.1⟩

/-- C6: persistence round trip.  Saving the session table at shutdown and
initialising from it loads exactly the saved table with an empty relay
registry, deletes the state file, and starts one cleanup timer for exactly
the relay addresses referenced by the loaded sessions; a load failure yields
the empty table, and the file is deleted in that case as well. -/
theorem persistence_roundtrip (S : SessionTable) :
    (relayFactoryInit (save_state S)).sessions = S ∧
    (relayFactoryInit (save_state S)).relays = [] ∧
    (relayFactoryInit (save_state S)).stateFileDeleted = true ∧
    (∀ ip, ip ∈ (relayFactoryInit (save_state S)).cleanup_timers ↔
      ∃ e ∈ S, e.2.relay_ip = ip) ∧
    (relayFactoryInit none).sessions = [] ∧
    (relayFactoryInit none).cleanup_timers = [] ∧
    (relayFactoryInit none).stateFileDeleted = true := by
  refine ⟨rfl, rfl, rfl, ?_, rfl, rfl, rfl⟩
  intro ip
  simp [relayFactoryInit, save_state, List.mem_dedup, List.mem_map]

/-- C8 counterexample: a halting (hence inactive) relay still in the registry
is sent both aggregation commands, so the fan-out is not restricted to active
relays. -/
theorem aggregation_contacts_inactive :
    ({ ip := "10.0.0.7", halting := true, timedout := false, authenticated := true }
      : RelayServerProtocol).active = false ∧
    (get_summary [("10.0.0.7",
        { ip := "10.0.0.7", halting := true, timedout := false, authenticated := true })]
      (fun _ => some "x")).1 = ["10.0.0.7"] ∧
    (get_statistics [("10.0.0.7",
        { ip := "10.0.0.7", halting := true, timedout := false, authenticated := true })]
      (fun _ => some "[\"s\"]")).1 = ["10.0.0.7"] :=
  ⟨rfl, rfl, rfl⟩

/-- C8 (amended): summary and sessions are fanned out to every relay in the
registry, active or not; the summary reply is one JSON array with one entry
per registered relay, a failing relay contributing the error-status object;
the sessions reply is one JSON array whose entries come only from relays
whose request succeeded with a non-empty array, each stripped of its
brackets, failing relays being omitted. -/
theorem aggregation_fanout (relays : List (String × RelayServerProtocol))
    (resp : String → Option String) :
    (get_summary relays resp).1 = relays.map (fun e => e.1) ∧
    (get_statistics relays resp).1 = relays.map (fun e => e.1) ∧
    (get_summary relays resp).2 =
      "[" ++ String.intercalate ", " (summaryParts relays resp) ++ "]" ∧
    (get_statistics relays resp).2 =
      "[" ++ String.intercalate ", " (statisticsParts relays resp) ++ "]" ∧
    (summaryParts relays resp).length = relays.length ∧
    (∀ e ∈ relays, resp e.1 = none →
      summaryErrorBody e.1 ∈ summaryParts relays resp) ∧
    (∀ e ∈ relays, ∀ r, resp e.1 = some r → r ∈ summaryParts relays resp) ∧
    (∀ part ∈ statisticsParts relays resp,
      ∃ e ∈ relays, ∃ r, resp e.1 = some r ∧ r ≠ "[]" ∧ part = stripBrackets r) := by
  refine ⟨rfl, rfl, rfl, rfl, by simp [summaryParts], ?_, ?_, ?_⟩
  · intro e he hnone
    have : summaryErrorBody e.1 =
        (fun e => match resp e.1 with
          | some body => body
          | none => summaryErrorBody e.1) e := by simp [hnone]
    rw [summaryParts, this]
    exact List.mem_map_of_mem _ he
  · intro e he r hr
    have : r = (fun e => match resp e.1 with
        | some body => body
        | none => summaryErrorBody e.1) e := by simp [hr]
    rw [summaryParts, this]
    exact List.mem_map_of_mem _ he
  · intro part hpart
    rw [statisticsParts] at hpart
    obtain ⟨r, hr1, hr2⟩ := List.mem_map.mp hpart
    obtain ⟨hr3, hr4⟩ := List.mem_filter.mp hr1
    obtain ⟨e, he, hre⟩ := List.mem_filterMap.mp hr3
    refine ⟨e, he, r, hre, ?_, hr2.symm⟩
    simpa using hr4

/-- C8 witness: the aggregation theorem applied to a registry of two relays,
one failing: the failing relay still receives the command and contributes the
error-status object to the summary. -/
theorem aggregation_fanout_witness :
    ((fun ip => if ip == "10.0.0.1" then some "[\"a\"]" else none) "10.0.0.2" =
      (none : Option String)) ∧
    summaryErrorBody "10.0.0.2" ∈ summaryParts
      [("10.0.0.1",
        { ip := "10.0.0.1", halting := false, timedout := false, authenticated := true }),
       ("10.0.0.2",
        { ip := "10.0.0.2", halting := false, timedout := false, authenticated := true })]
      (fun ip => if ip == "10.0.0.1" then some "[\"a\"]" else none) :=
  ⟨rfl,
    (aggregation_fanout
      [("10.0.0.1",
        { ip := "10.0.0.1", halting := false, timedout := false, authenticated := true }),
       ("10.0.0.2",
        { ip := "10.0.0.2", halting := false, timedout := false, authenticated := true })]
      (fun ip => if ip == "10.0.0.1" then some "[\"a\"]" else none)).2.2.2.2.2.1
      ("10.0.0.2",
        { ip := "10.0.0.2", halting := false, timedout := false, authenticated := true })
      (by decide) rfl⟩

/-- C9 counterexample: an expired payload that decodes to an object lacking
the call_id field raises an uncaught KeyError instead of being logged and
dropped. -/
theorem expired_missing_call_id_raises :
    handleExpired [] "10.0.0.1" 0
      (some (.obj [("streams", JVal.arr [])])) [] = .error "KeyError: call_id" :=
  rfl

/-- C9 (amended): a relay event whose payload does not decode is logged and
dropped without an exception and leaves the session table unchanged (for a
remove response the waiter is still completed with removed and no statistics
are forwarded, though the session is not removed either); but an expired
payload that decodes to an object lacking call_id, lacking streams, or whose
stream inspection fails (a stream without status) raises an uncaught
exception; every dropped expired event leaves the table unchanged. -/
theorem malformed_relay_events (sessions : SessionTable) (selfIp : String)
    (now : Nat) (sinks : List Sink) :
    handleExpired sessions selfIp now none sinks =
      .ok (.droppedDecodeError, sessions) ∧
    (∀ fs : JObj, fs.lookup "call_id" = none →
      handleExpired sessions selfIp now (some (.obj fs)) sinks =
        .error "KeyError: call_id") ∧
    (∀ (fs : JObj) (cidv : JVal) (session : RelaySession),
      fs.lookup "call_id" = some cidv →
      sessions.lookup (jvalKey cidv) = some session →
      session.relay_ip = selfIp →
      fs.lookup "streams" = none →
      handleExpired sessions selfIp now (some (.obj fs)) sinks =
        .error "KeyError: streams") ∧
    (∀ (fs : JObj) (cidv : JVal) (session : RelaySession) (xs : List JVal)
        (e : String),
      fs.lookup "call_id" = some cidv →
      sessions.lookup (jvalKey cidv) = some session →
      session.relay_ip = selfIp →
      fs.lookup "streams" = some (.arr xs) →
      allStreamsIce xs = .error e →
      handleExpired sessions selfIp now (some (.obj fs)) sinks = .error e) ∧
    handleRemoveResponse sessions none sinks =
      .ok { statsForwarded := none, sessions := sessions, waiterReply := "removed" } ∧
    (∀ (payload? : Option JVal) (tag : ExpiredTag) (tbl : SessionTable),
      handleExpired sessions selfIp now payload? sinks = .ok (tag, tbl) →
      (tag = .droppedDecodeError ∨ tag = .droppedUnknown ∨ tag = .droppedMismatch) →
      tbl = sessions) := by
  refine ⟨rfl, ?_, ?_, ?_, rfl, ?_⟩
  · intro fs h1
    simp only [handleExpired, getObj, objGet, h1]
    rfl
  · intro fs cidv session h1 h2 h3 h4
    have hne : (session.relay_ip != selfIp) = false := by rw [h3]; simp
    simp only [handleExpired, getObj, objGet, h1, h2, hne, Bool.false_eq_true,
      if_false, h4]
    rfl
  · intro fs cidv session xs e h1 h2 h3 h4 h5
    have hne : (session.relay_ip != selfIp) = false := by rw [h3]; simp
    simp only [handleExpired, getObj, objGet, h1, h2, hne, Bool.false_eq_true,
      if_false, h4, getArr, h5]
  · intro payload? tag tbl h hdrop
    cases payload? with
    | none => cases h; rfl
    | some payload =>
      cases payload with
      | null => cases h
      | bool b => cases h
      | num n => cases h
      | str s => cases h
      | arr ys => cases h
      | obj fs =>
        simp only [handleExpired, getObj, objGet] at h
        cases hfc : List.lookup "call_id" fs with
        | none => simp only [hfc] at h; cases h
        | some cidv =>
          simp only [hfc] at h
          cases hsl : List.lookup (jvalKey cidv) sessions with
          | none => simp only [hsl] at h; cases h; rfl
          | some session =>
            simp only [hsl] at h
            by_cases hmm : (session.relay_ip != selfIp) = true
            · simp only [hmm, if_true] at h; cases h; rfl
            · rw [Bool.not_eq_true] at hmm
              simp only [hmm, Bool.false_eq_true, if_false] at h
              cases hstr : List.lookup "streams" fs with
              | none => simp only [hstr] at h; cases h
              | some sv =>
                simp only [hstr] at h
                cases sv with
                | null => simp only [getArr] at h; cases h
                | bool b => simp only [getArr] at h; cases h
                | num n => simp only [getArr] at h; cases h
                | str s => simp only [getArr] at h; cases h
                | obj gs => simp only [getArr] at h; cases h
                | arr xs =>
                  simp only [getArr] at h
                  cases hai : allStreamsIce xs with
                  | error e => simp only [hai] at h; cases h
                  | ok ice =>
                    simp only [hai] at h
                    cases hup : update_statistics sinks
                        (annotateExpired fs session.dialog_id ice) with
                    | error e => simp only [hup] at h; cases h
                    | ok acct =>
                      simp only [hup] at h
                      by_cases hdi : session.dialog_id.isSome = true
                      · simp only [hdi, if_true] at h
                        cases hst : List.lookup "start_time"
                            (annotateExpired fs session.dialog_id ice) with
                        | none => simp only [hst] at h; cases h
                        | some stv =>
                          simp only [hst] at h
                          by_cases hcnd : (!stv.isNull && !ice) = true
                          · simp only [hcnd, if_true] at h
                            cases h
                            rcases hdrop with h1 | h1 | h1 <;> cases h1
                          · rw [Bool.not_eq_true] at hcnd
                            simp only [hcnd, Bool.false_eq_true, if_false] at h
                            cases h
                            rcases hdrop with h1 | h1 | h1 <;> cases h1
                      · rw [Bool.not_eq_true] at hdi
                        simp only [hdi, Bool.false_eq_true, if_false] at h
                        cases h
                        rcases hdrop with h1 | h1 | h1 <;> cases h1

/-- C9 witness: the malformed-event theorem applied at a concrete table, with
the undecodable-payload conjunct instantiated. -/
theorem malformed_relay_events_witness :
    handleExpired
      [(some "y", { relay_ip := "10.0.0.1", dialog_id := none, expire_time := none })]
      "10.0.0.1" 3 none [] =
      .ok (.droppedDecodeError,
        [(some "y", { relay_ip := "10.0.0.1", dialog_id := none, expire_time := none })]) ∧
    handleExpired
      [(some "y", { relay_ip := "10.0.0.1", dialog_id := none, expire_time := none })]
      "10.0.0.1" 3 (some (.obj [("streams", JVal.arr [])])) [] =
      .error "KeyError: call_id" :=
  ⟨(malformed_relay_events
      [(some "y", { relay_ip := "10.0.0.1", dialog_id := none, expire_time := none })]
      "10.0.0.1" 3 []).1,
    (malformed_relay_events
      [(some "y", { relay_ip := "10.0.0.1", dialog_id := none, expire_time := none })]
      "10.0.0.1" 3 []).2.1 [("streams", JVal.arr [])] rfl⟩

/-- C10: statistics delivery to the accounting sinks.  When the start_time
field of the event is null no sink is invoked; when it is non-null every sink
is invoked on the record, each inside its own try/except, so a raising sink
never prevents the remaining sinks from receiving the record. -/
theorem statistics_accounting (sinks : List Sink) (stats : JObj) (v : JVal)
    (hst : stats.lookup "start_time" = some v) :
    (v.isNull = true → update_statistics sinks stats = .ok []) ∧
    (v.isNull = false →
      update_statistics sinks stats = .ok (sinks.map (fun f => f stats)) ∧
      (sinks.map (fun f => f stats)).length = sinks.length) := by
  constructor
  · intro hn
    simp [update_statistics, hst, hn]
  · intro hn
    exact ⟨by simp [update_statistics, hst, hn], by simp⟩

/-- C10 witness: two sinks, the first of which raises: both are invoked on a
record with a non-null start_time, and the second still receives it. -/
theorem statistics_accounting_witness :
    update_statistics
      [fun _ => Except.error "boom", fun _ => Except.ok ()]
      [("start_time", JVal.num 5)] =
      .ok [Except.error "boom", Except.ok ()] :=
  ((statistics_accounting
    [fun _ => Except.error "boom", fun _ => Except.ok ()]
    [("start_time", JVal.num 5)] (JVal.num 5) rfl).2 rfl).1

/-- C7 witness: the amended characterization applied at a concrete
connection. -/
theorem active_characterization_witness :
    ({ ip := "10.0.0.4", halting := false, timedout := false, authenticated := true }
      : RelayServerProtocol).active = true :=
  (active_characterization
    { ip := "10.0.0.4", halting := false, timedout := false, authenticated := true }).mpr
    ⟨rfl, rfl⟩

/-- C6 witness: the persistence round trip applied at a concrete one-session
table: the session survives the round trip and its relay address receives a
cleanup timer. -/
theorem persistence_roundtrip_witness :
    (relayFactoryInit (save_state
      [(some "w", { relay_ip := "10.0.0.3", dialog_id := none, expire_time := none })])).sessions =
      [(some "w", { relay_ip := "10.0.0.3", dialog_id := none, expire_time := none })] ∧
    "10.0.0.3" ∈ (relayFactoryInit (save_state
      [(some "w", { relay_ip := "10.0.0.3", dialog_id := none, expire_time := none })])).cleanup_timers :=
  ⟨(persistence_roundtrip
      [(some "w", { relay_ip := "10.0.0.3", dialog_id := none, expire_time := none })]).1,
    ((persistence_roundtrip
      [(some "w", { relay_ip := "10.0.0.3", dialog_id := none, expire_time := none })]).2.2.2.1
      "10.0.0.3").mpr
      ⟨(some "w", { relay_ip := "10.0.0.3", dialog_id := none, expire_time := none }),
        by simp, rfl⟩⟩
